import Mathlib

/-!
Verification of the DCF valuation engine (`dcf_engine.py`, `excel_builder.py`).

The engine is embedded shallowly over `ℚ`:

* Python `dict`s of numeric series become structures of `List ℚ`;
* `series[0]` (which raises `IndexError` on an empty list) becomes
  `List.head?` in the `Option` monad, and out-of-range indexing inside the
  metrics loops becomes `l[i]?`;
* Python float arithmetic is modelled by exact rational arithmetic;
* Python truthiness tests `x if x else y` on numbers become
  `if x = 0 then y else x`.
-/

/-- A scenario record, mirroring the `Scenario` dataclass of `dcf_engine.py`. -/
structure Scenario where
  name : String
  descr : String
  revenue_growth_adj : ℚ
  margin_adj : ℚ
  wacc_adj : ℚ
  terminal_growth_adj : ℚ
deriving Repr, DecidableEq

/-- The built-in scenario registry `SCENARIOS` of `dcf_engine.py`,
in its source order. -/
def SCENARIOS : List (String × Scenario) :=
  [ ("base", ⟨"Base Case", "Moderate growth, current interest rates maintained",
      0, 0, 0, 0⟩),
    ("bull", ⟨"Bull Case", "Rising sales and profit, falling interest rates (-100bp)",
      0.03, 0.02, -0.01, 0.005⟩),
    ("bear", ⟨"Bear Case", "Falling sales and profit, rising interest rates (+150bp)",
      -0.03, -0.02, 0.015, -0.005⟩),
    ("rate_hike", ⟨"Rising Rates", "Stable sales, aggressive rate hikes (+200bp)",
      0, -0.005, 0.02, 0⟩),
    ("rate_cut", ⟨"Falling Rates", "Stable sales, rate cuts (-150bp)",
      0, 0.005, -0.015, 0⟩) ]

/-- The base-case scenario (all adjustments zero). -/
def baseScenario : Scenario :=
  ⟨"Base Case", "Moderate growth, current interest rates maintained", 0, 0, 0, 0⟩

/-- The named numeric series of a `FinancialStatementSeries`
(the `financials` dict consumed by `dcf_engine.py`). -/
structure Financials where
  revenue : List ℚ
  cost_of_revenue : List ℚ
  gross_profit : List ℚ
  operating_income : List ℚ
  ebitda : List ℚ
  net_income : List ℚ
  tax_provision : List ℚ
  interest_expense : List ℚ
  depreciation : List ℚ
  total_assets : List ℚ
  total_liabilities : List ℚ
  total_equity : List ℚ
  total_debt : List ℚ
  cash : List ℚ
  current_assets : List ℚ
  current_liabilities : List ℚ
  operating_cash_flow : List ℚ
  capex : List ℚ
  depreciation_amortization : List ℚ
  change_in_working_capital : List ℚ
  free_cash_flow : List ℚ
deriving Repr, DecidableEq

/-- The market snapshot (`stock` dict): absent `market_cap`/`beta` are
modelled as `0`, matching the Python `or` fallbacks. -/
structure Stock where
  current_price : ℚ
  market_cap : ℚ
  shares_outstanding : ℚ
  beta : ℚ
deriving Repr, DecidableEq

/-- The rate environment (`rates` dict). -/
structure Rates where
  risk_free_rate : ℚ
deriving Repr, DecidableEq

/-- Builds a `Financials` record from the ten series the engine consults,
leaving the remaining series empty (test fixtures only). -/
def mkFin (rev oi ni tp ie dp td ca cx fcf : List ℚ) : Financials :=
  ⟨rev, [], [], oi, [], ni, tp, ie, dp, [], [], [], td, ca, [], [], [], cx, [], [], fcf⟩

/-- Output record of `compute_wacc`. -/
structure WaccData where
  wacc : ℚ
  cost_of_equity : ℚ
  cost_of_debt : ℚ
  tax_rate : ℚ
  weight_equity : ℚ
  weight_debt : ℚ
  risk_free_rate : ℚ
  beta : ℚ
  equity_risk_premium : ℚ
  equity_value : ℚ
  debt_value : ℚ
deriving Repr, DecidableEq

/-- The body of `compute_wacc` of `dcf_engine.py`, as a total function of
the already-extracted latest-period figures `td0` (`total_debt[0]`),
`ie0` (`interest_expense[0]`), `tp0` (`tax_provision[0]`) and `ni0`
(`net_income[0]`).  The Python truthiness guards are kept literally. -/
def computeWaccCore (stock : Stock) (rates : Rates) (equity_risk_premium : ℚ)
    (td0 ie0 tp0 ni0 : ℚ) : WaccData :=
  let rf := rates.risk_free_rate
  let beta := if stock.beta = 0 then 1 else stock.beta
  let cost_of_equity := rf + beta * equity_risk_premium
  let debt := if td0 = 0 then 1 else td0
  let interest := if ie0 = 0 then 0 else |ie0|
  let cost_of_debt := if debt > 0 then interest / debt else rf
  let tax_prov := if tp0 = 0 then 0 else |tp0|
  let pretax_income := if ni0 = 0 then 1 else |ni0| + tax_prov
  let tax_rate := if pretax_income > 0 then tax_prov / pretax_income else 0.21
  let equity_value :=
    if stock.market_cap = 0 then stock.current_price * stock.shares_outstanding
    else stock.market_cap
  let debt_value := td0
  let total_value := equity_value + debt_value
  let weight_equity := if total_value > 0 then equity_value / total_value else 0.7
  let weight_debt := if total_value > 0 then debt_value / total_value else 0.3
  let wacc := weight_equity * cost_of_equity + weight_debt * cost_of_debt * (1 - tax_rate)
  ⟨wacc, cost_of_equity, cost_of_debt, tax_rate, weight_equity, weight_debt,
   rf, beta, equity_risk_premium, equity_value, debt_value⟩

/-- `compute_wacc` of `dcf_engine.py`.  All `series[0]` accesses go through
`List.head?` (Python raises `IndexError` on an empty series). -/
def computeWacc (stock : Stock) (f : Financials) (rates : Rates)
    (equity_risk_premium : ℚ) : Option WaccData := do
  let td0 ← f.total_debt.head?
  let ie0 ← f.interest_expense.head?
  let tp0 ← f.tax_provision.head?
  let ni0 ← f.net_income.head?
  return computeWaccCore stock rates equity_risk_premium td0 ie0 tp0 ni0

/-- Output record of `compute_historical_metrics`. -/
structure Metrics where
  revenue_growths : List ℚ
  operating_margins : List ℚ
  net_margins : List ℚ
  fcf_margins : List ℚ
  capex_pcts : List ℚ
  da_pcts : List ℚ
  avg_revenue_growth : ℚ
  avg_operating_margin : ℚ
  avg_fcf_margin : ℚ
  avg_capex_pct : ℚ
  avg_da_pct : ℚ
deriving Repr, DecidableEq

/-- One per-period ratio `num[i] / rev[i] if rev[i] else 0`: the Python
conditional evaluates `rev[i]` first, so `num[i]` is only indexed (and can
only fail) when `rev[i]` is nonzero. -/
def periodRatio (rev num : List ℚ) (i : ℕ) : Option ℚ :=
  let r := rev.getD i 0
  if r = 0 then some 0 else (num[i]?).map (fun x => x / r)

/-- Same, with `|num[i]|` in the numerator (capex and D&A percentages). -/
def periodAbsRatio (rev num : List ℚ) (i : ℕ) : Option ℚ :=
  let r := rev.getD i 0
  if r = 0 then some 0 else (num[i]?).map (fun x => |x| / r)

/-- `sum(l)/len(l) if l else d` of `compute_historical_metrics`. -/
def avgOr (l : List ℚ) (d : ℚ) : ℚ :=
  if l.length = 0 then d else l.sum / (l.length : ℚ)

/-- Sequencing of a fallible step over a list (a Python `for` loop that can
raise): `some` of the list of results when every step succeeds, `none` as
soon as one fails. -/
def seqMap {α β : Type} (step : α → Option β) : List α → Option (List β)
  | [] => some []
  | a :: t => do
    let b ← step a
    let r ← seqMap step t
    return b :: r

/-- `compute_historical_metrics` of `dcf_engine.py`.  The growth loop only
indexes `revenue` (always in range); the margin/ratio loops index the other
series at every `i < len(revenue)` with nonzero revenue and fail
(`IndexError`, here `none`) if that series is too short. -/
def computeHistoricalMetrics (f : Financials) : Option Metrics := do
  let rev := f.revenue
  let K := rev.length
  let rev_growths := (List.range (K - 1)).map (fun i =>
    let r1 := rev.getD (i + 1) 0
    if r1 = 0 then 0 else (rev.getD i 0 - r1) / |r1|)
  let op_margins ← seqMap (periodRatio rev f.operating_income) (List.range K)
  let net_margins ← seqMap (periodRatio rev f.net_income) (List.range K)
  let fcf_margins ← seqMap (periodRatio rev f.free_cash_flow) (List.range K)
  let capex_pcts ← seqMap (periodAbsRatio rev f.capex) (List.range K)
  let da_pcts ← seqMap (periodAbsRatio rev f.depreciation) (List.range K)
  return ⟨rev_growths, op_margins, net_margins, fcf_margins, capex_pcts, da_pcts,
          avgOr rev_growths 0.05, avgOr op_margins 0.15, avgOr fcf_margins 0.10,
          avgOr capex_pcts 0.03, avgOr da_pcts 0.03⟩

/-- Output record of `project_fcf`. -/
structure Projection where
  scenario : String
  projection_years : ℕ
  growth_rates : List ℚ
  margins : List ℚ
  tax_rate : ℚ
  projected_revenue : List ℚ
  projected_ebit : List ℚ
  projected_nopat : List ℚ
  projected_da : List ℚ
  projected_capex : List ℚ
  projected_fcf : List ℚ
deriving Repr, DecidableEq

/-- The per-year faded growth rate of `project_fcf`:
`fade = 1 - (yr-1)/(2N)`, `growth = adj_growth * fade`, floored at `0.005`
when `adj_growth > 0`. -/
def fadeGrowth (adj_growth : ℚ) (years : ℕ) (yr : ℕ) : ℚ :=
  let fade : ℚ := 1 - ((yr : ℚ) - 1) / ((years : ℚ) * 2)
  let growth := adj_growth * fade
  if adj_growth > 0 then max growth 0.005 else growth

/-- The tax rate recomputed locally from the latest period in
`project_fcf`: `tax_prov / pretax` with `pretax = |ni0| + tax_prov`,
falling back to `0.21` when `pretax` is not positive. -/
def projTaxRate (tp0 ni0 : ℚ) : ℚ :=
  let tax_prov := if tp0 = 0 then 0 else |tp0|
  let pretax := |ni0| + tax_prov
  if pretax > 0 then tax_prov / pretax else 0.21

/-- The body of `project_fcf` of `dcf_engine.py`, as a total function of
the extracted latest-period figures `base_rev` (`revenue[0]`), `tp0`
(`tax_provision[0]`) and `ni0` (`net_income[0]`).  The loop body is
expressed as maps over `yr = 1..N`; revenue is anchored at `base_rev` and
raised to the power `yr` (the source's closed form, not a running
product). -/
def projectFcfCore (metrics : Metrics) (scenario : Scenario)
    (projection_years : ℕ) (base_rev tp0 ni0 : ℚ) : Projection :=
  let base_growth := metrics.avg_revenue_growth
  let base_op_margin := metrics.avg_operating_margin
  let base_capex_pct := metrics.avg_capex_pct
  let base_da_pct := metrics.avg_da_pct
  let tax_rate := projTaxRate tp0 ni0
  let adj_growth := max (base_growth + scenario.revenue_growth_adj) (-0.15)
  let adj_margin := max (base_op_margin + scenario.margin_adj) 0.01
  let years := (List.range projection_years).map (fun i => i + 1)
  let revAt := fun (yr : ℕ) => base_rev * (1 + fadeGrowth adj_growth projection_years yr) ^ yr
  ⟨scenario.name, projection_years,
   years.map (fadeGrowth adj_growth projection_years),
   years.map (fun _ => adj_margin),
   tax_rate,
   years.map revAt,
   years.map (fun yr => revAt yr * adj_margin),
   years.map (fun yr => revAt yr * adj_margin * (1 - tax_rate)),
   years.map (fun yr => revAt yr * base_da_pct),
   years.map (fun yr => revAt yr * base_capex_pct),
   years.map (fun yr => revAt yr * adj_margin * (1 - tax_rate)
     + revAt yr * base_da_pct - revAt yr * base_capex_pct)⟩

/-- `project_fcf` of `dcf_engine.py`. -/
def projectFcf (f : Financials) (metrics : Metrics) (scenario : Scenario)
    (projection_years : ℕ) : Option Projection := do
  let base_rev ← f.revenue.head?
  let tp0 ← f.tax_provision.head?
  let ni0 ← f.net_income.head?
  return projectFcfCore metrics scenario projection_years base_rev tp0 ni0

/-- Output record of `compute_dcf`. -/
structure Dcf where
  scenario : String
  wacc : ℚ
  terminal_growth : ℚ
  pv_fcfs : List ℚ
  pv_fcf_total : ℚ
  terminal_value : ℚ
  pv_terminal_value : ℚ
  enterprise_value : ℚ
  net_debt : ℚ
  equity_value : ℚ
  shares_outstanding : ℚ
  implied_share_price : ℚ
  current_price : ℚ
  upside_downside : ℚ
deriving Repr, DecidableEq

/-- The body of `compute_dcf` of `dcf_engine.py`, as a total function of
the extracted values `lastFcf` (`fcfs[-1]`), `td0` (`total_debt[0]`) and
`c0` (`cash[0]`). -/
def computeDcfCore (projection : Projection) (wacc_data : WaccData) (scenario : Scenario)
    (stock : Stock) (terminal_growth : ℚ) (lastFcf td0 c0 : ℚ) : Dcf :=
  let wacc := max (wacc_data.wacc + scenario.wacc_adj) 0.04
  let tg := max (min (terminal_growth + scenario.terminal_growth_adj) (wacc - 0.01)) 0.005
  let fcfs := projection.projected_fcf
  let n := fcfs.length
  let pv_fcfs := fcfs.mapIdx (fun i fcf => fcf / (1 + wacc) ^ (i + 1))
  let pv_fcf_total := pv_fcfs.sum
  let terminal_fcf := lastFcf * (1 + tg)
  let terminal_value := terminal_fcf / (wacc - tg)
  let pv_terminal := terminal_value / (1 + wacc) ^ n
  let enterprise_value := pv_fcf_total + pv_terminal
  let net_debt := td0 - c0
  let equity_value := enterprise_value - net_debt
  let shares := stock.shares_outstanding
  let value_per_share := if shares > 0 then equity_value / shares else 0
  let current_price := stock.current_price
  let upside := if current_price > 0 then (value_per_share - current_price) / current_price else 0
  ⟨scenario.name, wacc, tg, pv_fcfs, pv_fcf_total, terminal_value, pv_terminal,
   enterprise_value, net_debt, equity_value, shares, value_per_share,
   current_price, upside⟩

/-- `compute_dcf` of `dcf_engine.py`.  `fcfs[-1]` becomes `getLast?`. -/
def computeDcf (projection : Projection) (wacc_data : WaccData) (scenario : Scenario)
    (stock : Stock) (f : Financials) (terminal_growth : ℚ) : Option Dcf := do
  let lastFcf ← projection.projected_fcf.getLast?
  let td0 ← f.total_debt.head?
  let c0 ← f.cash.head?
  return computeDcfCore projection wacc_data scenario stock terminal_growth lastFcf td0 c0

/-- One scenario's collected results in `run_all_scenarios`. -/
structure ScenarioResult where
  scenario : Scenario
  projection : Projection
  dcf : Dcf
deriving Repr, DecidableEq

/-- The result tree returned by `run_all_scenarios`. -/
structure ModelResult where
  wacc_data : WaccData
  metrics : Metrics
  scenarios : List (String × ScenarioResult)
  projection_years : ℕ
  terminal_growth : ℚ
deriving Repr, DecidableEq

/-- The loop body of `run_all_scenarios`: projector then valuator for one
registry entry. -/
def scenarioStep (stock : Stock) (f : Financials) (wacc_data : WaccData)
    (metrics : Metrics) (projection_years : ℕ) (terminal_growth : ℚ)
    (ks : String × Scenario) : Option (String × ScenarioResult) := do
  let projection ← projectFcf f metrics ks.2 projection_years
  let dcf ← computeDcf projection wacc_data ks.2 stock f terminal_growth
  return (ks.1, ScenarioResult.mk ks.2 projection dcf)

/-- `run_all_scenarios` of `dcf_engine.py`: WACC once, metrics once, then
projector and valuator for every registry entry in order. -/
def runAllScenarios (stock : Stock) (f : Financials) (rates : Rates)
    (projection_years : ℕ) (terminal_growth : ℚ) (equity_risk_premium : ℚ) :
    Option ModelResult := do
  let wacc_data ← computeWacc stock f rates equity_risk_premium
  let metrics ← computeHistoricalMetrics f
  let scenarios ← seqMap
    (scenarioStep stock f wacc_data metrics projection_years terminal_growth) SCENARIOS
  return ⟨wacc_data, metrics, scenarios, projection_years, terminal_growth⟩

/-!
### Sensitivity grids (`build_sensitivity` in `excel_builder.py`)

Only the numeric content of the worksheet cells is embedded: each grid cell
is the value written into the sheet, with the "N/A" marker modelled as
`none` and a price as `some p`.
-/

/-- Terminal-growth column values of the WACC x terminal-growth grid:
`base_tg + delta`, each floored at `0.005`. -/
def tgRange (base_tg : ℚ) : List ℚ :=
  ([-0.015, -0.01, -0.005, 0, 0.005, 0.01, 0.015] : List ℚ).map
    (fun delta => max (base_tg + delta) 0.005)

/-- WACC row values of the WACC x terminal-growth grid:
`base_wacc + delta`, each floored at `0.04`. -/
def waccRange (base_wacc : ℚ) : List ℚ :=
  ([-0.03, -0.02, -0.01, 0, 0.01, 0.02, 0.03] : List ℚ).map
    (fun delta => max (base_wacc + delta) 0.04)

/-- One cell of the WACC x terminal-growth grid: "N/A" (`none`) when
`wacc <= tg`, otherwise the implied price recomputed from the base-case
projected FCF path at this cell's `(wacc, tg)`. -/
def sensCell (proj_fcfs : List ℚ) (last_fcf : ℚ) (n_proj : ℕ)
    (net_debt shares : ℚ) (wacc tg : ℚ) : Option ℚ :=
  if wacc ≤ tg then none
  else
    let new_pv_fcfs := (proj_fcfs.mapIdx (fun k fcf => fcf / (1 + wacc) ^ (k + 1))).sum
    let term_fcf := last_fcf * (1 + tg)
    let term_val := term_fcf / (wacc - tg)
    let pv_term := term_val / (1 + wacc) ^ n_proj
    let ev := new_pv_fcfs + pv_term
    let eq_val := ev - net_debt
    some (if shares > 0 then eq_val / shares else 0)

/-- The full WACC x terminal-growth grid, reading its inputs from the model
result exactly as `build_sensitivity` does (base-case projected FCF path,
`proj_fcfs[-1]`, base-case net debt, market shares). -/
def buildWaccTgGrid (stock : Stock) (mr : ModelResult) :
    Option (List (List (Option ℚ))) := do
  let base_wacc := mr.wacc_data.wacc
  let base_tg := mr.terminal_growth
  let base := ← (mr.scenarios.lookup "base")
  let proj_fcfs := base.projection.projected_fcf
  let last_fcf ← proj_fcfs.getLast?
  let n_proj := mr.projection_years
  let net_debt := base.dcf.net_debt
  let shares := stock.shares_outstanding
  return (waccRange base_wacc).map (fun wacc =>
    (tgRange base_tg).map (fun tg =>
      sensCell proj_fcfs last_fcf n_proj net_debt shares wacc tg))

/-- Growth row values of the revenue-growth x operating-margin grid. -/
def growthRange (base_growth : ℚ) : List ℚ :=
  ([-0.04, -0.02, 0, 0.02, 0.04, 0.06] : List ℚ).map (fun d => base_growth + d)

/-- Margin column values of the revenue-growth x operating-margin grid. -/
def marginRange (base_margin : ℚ) : List ℚ :=
  ([-0.04, -0.02, 0, 0.02, 0.04] : List ℚ).map (fun d => base_margin + d)

/-- One cell of the revenue-growth x operating-margin grid of
`build_sensitivity`: a fresh FCF path is built with the cell's growth `gr`
faded linearly (no flooring of the faded rate) and margin `max mg 0.01`,
then valued at the raw base WACC and base terminal growth, with a zero
terminal value when `w <= base_tg`.  Inputs are read from the base-case
result as in the source (`base_rev` from `financials`, capex/D&A
percentages and tax rate from the base metrics/projection, net debt from
the base valuation). -/
def growthMarginCell (f : Financials) (stock : Stock) (wacc_data : WaccData)
    (metrics : Metrics) (baseProj : Projection) (baseDcf : Dcf)
    (n_proj : ℕ) (base_tg : ℚ) (gr mg : ℚ) : Option ℚ := do
  let base_wacc := wacc_data.wacc
  let base_capex_pct := metrics.avg_capex_pct
  let base_da_pct := metrics.avg_da_pct
  let tax_rate := baseProj.tax_rate
  let net_debt := baseDcf.net_debt
  let shares := stock.shares_outstanding
  let base_rev ← f.revenue.head?
  let proj_fcfs := ((List.range n_proj).map (fun i => i + 1)).map (fun (yr : ℕ) =>
    let fade : ℚ := 1 - ((yr : ℚ) - 1) / ((n_proj : ℚ) * 2)
    let g := gr * fade
    let rev := base_rev * (1 + g) ^ yr
    let ebit := rev * max mg 0.01
    let nopat := ebit * (1 - tax_rate)
    let da := rev * base_da_pct
    let capex := rev * base_capex_pct
    nopat + da - capex)
  let lastF ← proj_fcfs.getLast?
  let w := base_wacc
  let new_pv := (proj_fcfs.mapIdx (fun k fcf => fcf / (1 + w) ^ (k + 1))).sum
  let tf := lastF * (1 + base_tg)
  let tv := if w > base_tg then tf / (w - base_tg) else 0
  let pvt := tv / (1 + w) ^ n_proj
  let ev := new_pv + pvt
  let eq := ev - net_debt
  return (if shares > 0 then eq / shares else 0)

/-- The valuation the specification prescribes for a growth x margin cell:
run the Cash Flow Projector (`projectFcf`, with all its floors) with the
cell's growth/margin installed as the baseline averages and the base
scenario's zero adjustments, then value the projection with the DCF
Valuator (`computeDcf`) at the base-case WACC and configured terminal
growth, holding net debt and shares at base-case values. -/
def projectorCellPrice (f : Financials) (stock : Stock) (wacc_data : WaccData)
    (metrics : Metrics) (n_proj : ℕ) (base_tg : ℚ) (gr mg : ℚ) : Option ℚ := do
  let metrics' := { metrics with avg_revenue_growth := gr, avg_operating_margin := mg }
  let p ← projectFcf f metrics' baseScenario n_proj
  let d ← computeDcf p wacc_data baseScenario stock f base_tg
  return d.implied_share_price

/-!
### Destructuring lemmas for the `Option`-monad wrappers
-/

theorem computeWacc_eq_some {stock : Stock} {f : Financials} {rates : Rates} {erp : ℚ}
    {wd : WaccData} (h : computeWacc stock f rates erp = some wd) :
    ∃ td0 ie0 tp0 ni0, f.total_debt.head? = some td0 ∧ f.interest_expense.head? = some ie0 ∧
      f.tax_provision.head? = some tp0 ∧ f.net_income.head? = some ni0 ∧
      wd = computeWaccCore stock rates erp td0 ie0 tp0 ni0 := by
  simp only [computeWacc, bind, Option.bind_eq_some, pure, Option.some_inj] at h
  obtain ⟨td0, h1, ie0, h2, tp0, h3, ni0, h4, h5⟩ := h
  exact ⟨td0, ie0, tp0, ni0, h1, h2, h3, h4, h5.symm⟩

theorem projectFcf_eq_some {f : Financials} {m : Metrics} {s : Scenario} {N : ℕ}
    {p : Projection} (h : projectFcf f m s N = some p) :
    ∃ br tp0 ni0, f.revenue.head? = some br ∧ f.tax_provision.head? = some tp0 ∧
      f.net_income.head? = some ni0 ∧ p = projectFcfCore m s N br tp0 ni0 := by
  simp only [projectFcf, bind, Option.bind_eq_some, pure, Option.some_inj] at h
  obtain ⟨br, h1, tp0, h2, ni0, h3, h4⟩ := h
  exact ⟨br, tp0, ni0, h1, h2, h3, h4.symm⟩

theorem computeDcf_eq_some {p : Projection} {wd : WaccData} {s : Scenario} {stock : Stock}
    {f : Financials} {tgc : ℚ} {d : Dcf} (h : computeDcf p wd s stock f tgc = some d) :
    ∃ lastFcf td0 c0, p.projected_fcf.getLast? = some lastFcf ∧
      f.total_debt.head? = some td0 ∧ f.cash.head? = some c0 ∧
      d = computeDcfCore p wd s stock tgc lastFcf td0 c0 := by
  simp only [computeDcf, bind, Option.bind_eq_some, pure, Option.some_inj] at h
  obtain ⟨lf, h1, td0, h2, c0, h3, h4⟩ := h
  exact ⟨lf, td0, c0, h1, h2, h3, h4.symm⟩

theorem scenarioStep_eq_some {stock : Stock} {f : Financials} {wd : WaccData} {m : Metrics}
    {N : ℕ} {tgc : ℚ} {ks : String × Scenario} {out : String × ScenarioResult}
    (h : scenarioStep stock f wd m N tgc ks = some out) :
    ∃ p d, projectFcf f m ks.2 N = some p ∧ computeDcf p wd ks.2 stock f tgc = some d ∧
      out = (ks.1, ScenarioResult.mk ks.2 p d) := by
  simp only [scenarioStep, bind, Option.bind_eq_some, pure, Option.some_inj] at h
  obtain ⟨p, h1, d, h2, h3⟩ := h
  exact ⟨p, d, h1, h2, h3.symm⟩

theorem runAllScenarios_eq_some {stock : Stock} {f : Financials} {rates : Rates}
    {N : ℕ} {tgc erp : ℚ} {mr : ModelResult}
    (h : runAllScenarios stock f rates N tgc erp = some mr) :
    ∃ wd m scs, computeWacc stock f rates erp = some wd ∧
      computeHistoricalMetrics f = some m ∧
      seqMap (scenarioStep stock f wd m N tgc) SCENARIOS = some scs ∧
      mr = ⟨wd, m, scs, N, tgc⟩ := by
  simp only [runAllScenarios, bind, Option.bind_eq_some, pure, Option.some_inj] at h
  obtain ⟨wd, h1, m, h2, scs, h3, h4⟩ := h
  exact ⟨wd, m, scs, h1, h2, h3, h4.symm⟩

theorem seqMap_mem_exists {α β : Type} (step : α → Option β) :
    ∀ (l : List α) (res : List β), seqMap step l = some res →
      ∀ b ∈ res, ∃ a ∈ l, step a = some b := by
  intro l
  induction l with
  | nil =>
    intro res h b hb
    simp only [seqMap, Option.some_inj] at h
    subst h
    simp at hb
  | cons a t ih =>
    intro res h b hb
    simp only [seqMap, bind, Option.bind_eq_some, pure, Option.some_inj] at h
    obtain ⟨b0, h1, r, h2, h3⟩ := h
    subst h3
    rcases List.mem_cons.mp hb with hb | hb
    · exact ⟨a, List.mem_cons_self a t, hb ▸ h1⟩
    · obtain ⟨a', ha', hstep⟩ := ih r h2 b hb
      exact ⟨a', List.mem_cons_of_mem _ ha', hstep⟩

theorem seqMap_isSome {α β : Type} (step : α → Option β) :
    ∀ (l : List α), (∀ a ∈ l, (step a).isSome) → (seqMap step l).isSome := by
  intro l
  induction l with
  | nil => intro _; simp [seqMap]
  | cons a t ih =>
    intro h
    obtain ⟨b, hb⟩ := Option.isSome_iff_exists.mp (h a (List.mem_cons_self a t))
    obtain ⟨r, hr⟩ := Option.isSome_iff_exists.mp
      (ih (fun x hx => h x (List.mem_cons_of_mem _ hx)))
    simp [seqMap, bind, hb, hr, pure]

/-!
### Claim theorems
-/

/-- Fixture projection for the `C5` witness. -/
def fixP5 : Projection := ⟨"x", 1, [], [], 0, [], [], [], [], [], [1]⟩

/-- Fixture WACC breakdown with base WACC `0.09`. -/
def fixWd5 : WaccData := ⟨0.09, 0, 0, 0, 0, 0, 0, 0, 0, 0, 0⟩

/-- Fixture scenario with `wacc_adj = -0.5`. -/
def fixS5 : Scenario := ⟨"s", "d", 0, 0, -0.5, 0⟩

/-- Fixture market snapshot. -/
def fixStock : Stock := ⟨1, 1, 1, 1⟩

/-- Fixture financials with zero debt and cash. -/
def fixF5 : Financials := mkFin [] [] [] [] [] [] [0] [0] [] []

/-- Claim C5: for every scenario, the DCF Valuator uses
`wacc = max(wacc_base + scenario.wacc_adj, 0.04)` and
`tg = clamp(terminal_growth_config + scenario.terminal_growth_adj, 0.005, wacc - 0.01)`,
so the effective terminal growth never exceeds `wacc - 0.01`; in particular
`wacc_adj = -0.5` against base WACC `0.09` yields `wacc = 0.04` exactly, and
with `wacc = 0.04` and configured `tg + adjustment = 0.06` the effective
`tg` is `0.03` exactly. -/
theorem C5_wacc_floor_and_tg_clamp
    (p : Projection) (wd : WaccData) (s : Scenario) (stock : Stock)
    (f : Financials) (tgc : ℚ) (d : Dcf)
    (h : computeDcf p wd s stock f tgc = some d) :
    d.wacc = max (wd.wacc + s.wacc_adj) 0.04 ∧
    d.terminal_growth = max (min (tgc + s.terminal_growth_adj) (d.wacc - 0.01)) 0.005 ∧
    d.terminal_growth ≤ d.wacc - 0.01 ∧
    (wd.wacc = 0.09 ∧ s.wacc_adj = -0.5 → d.wacc = 0.04) ∧
    (d.wacc = 0.04 ∧ tgc + s.terminal_growth_adj = 0.06 → d.terminal_growth = 0.03) := by
  obtain ⟨lf, td0, c0, _, _, _, hd⟩ := computeDcf_eq_some h
  subst hd
  refine ⟨rfl, rfl, ?_, ?_, ?_⟩
  · simp only [computeDcfCore]
    have hw : (0.04 : ℚ) ≤ max (wd.wacc + s.wacc_adj) 0.04 := le_max_right _ _
    apply max_le (min_le_right _ _)
    linarith
  · rintro ⟨e1, e2⟩
    simp only [computeDcfCore]
    rw [e1, e2]
    norm_num
  · rintro ⟨e1, e2⟩
    simp only [computeDcfCore] at e1 ⊢
    rw [e1, e2]
    norm_num [min_def, max_def]

/-- Concrete instantiation of `C5_wacc_floor_and_tg_clamp`: a scenario with
`wacc_adj = -0.5` against base WACC `0.09` and configured terminal growth
`0.06` gives effective WACC `0.04` and effective terminal growth `0.03`. -/
theorem C5_wacc_floor_and_tg_clamp_witness :
    (computeDcfCore fixP5 fixWd5 fixS5 fixStock 0.06 1 0 0).wacc = 0.04 ∧
    (computeDcfCore fixP5 fixWd5 fixS5 fixStock 0.06 1 0 0).terminal_growth = 0.03 := by
  have h := C5_wacc_floor_and_tg_clamp fixP5 fixWd5 fixS5 fixStock fixF5 0.06
    (computeDcfCore fixP5 fixWd5 fixS5 fixStock 0.06 1 0 0) (by rfl)
  exact ⟨h.2.2.2.1 ⟨by rfl, by rfl⟩,
    h.2.2.2.2 ⟨h.2.2.2.1 ⟨by rfl, by rfl⟩, by norm_num [fixS5]⟩⟩

/-- Claim C10: the tax rate recorded in a `Projection` always lies in the
closed interval `[0, 1]`: it is either
`|tax_provision[0]| / (|net_income[0]| + |tax_provision[0]|)`, which never
exceeds `1`, or the `0.21` fallback when that pretax sum is not positive. -/
theorem C10_projection_tax_rate_bounds
    (f : Financials) (m : Metrics) (s : Scenario) (N : ℕ) (p : Projection)
    (h : projectFcf f m s N = some p) :
    0 ≤ p.tax_rate ∧ p.tax_rate ≤ 1 := by
  obtain ⟨br, tp0, ni0, _, _, _, hp⟩ := projectFcf_eq_some h
  subst hp
  simp only [projectFcfCore, projTaxRate]
  have hA : (0 : ℚ) ≤ if tp0 = 0 then 0 else |tp0| := by
    split
    · exact le_refl 0
    · exact abs_nonneg tp0
  rcases lt_or_le 0 (|ni0| + if tp0 = 0 then 0 else |tp0|) with hlt | hle
  · rw [if_pos hlt]
    constructor
    · exact div_nonneg hA hlt.le
    · rw [div_le_one hlt]
      have := abs_nonneg ni0
      linarith
  · rw [if_neg (not_lt.mpr hle)]
    norm_num

/-- Fixture metrics record (all fields zero). -/
def fixM0 : Metrics := ⟨[], [], [], [], [], [], 0, 0, 0, 0, 0⟩

/-- Concrete instantiation of `C10_projection_tax_rate_bounds`. -/
theorem C10_projection_tax_rate_bounds_witness :
    0 ≤ (projectFcfCore fixM0 ⟨"s", "d", 0, 0, 0, 0⟩ 1 5 3 (-7)).tax_rate ∧
    (projectFcfCore fixM0 ⟨"s", "d", 0, 0, 0, 0⟩ 1 5 3 (-7)).tax_rate ≤ 1 :=
  C10_projection_tax_rate_bounds
    (mkFin [5] [] [-7] [3] [] [] [] [] [] [])
    fixM0 ⟨"s", "d", 0, 0, 0, 0⟩ 1 _ rfl

/-- Claim C9: for every scenario and every run, the valuation output
satisfies `enterprise_value = PV_fcf_total + PV_terminal_value` and
`equity_value = enterprise_value - net_debt`, where
`net_debt = total_debt[0] - cash[0]` (identities exact over `ℚ`). -/
theorem C9_bridge_identity
    (stock : Stock) (f : Financials) (rates : Rates) (N : ℕ) (tgc erp : ℚ)
    (mr : ModelResult) (h : runAllScenarios stock f rates N tgc erp = some mr)
    (k : String) (sr : ScenarioResult) (hmem : (k, sr) ∈ mr.scenarios)
    (td0 c0 : ℚ) (htd : f.total_debt.head? = some td0) (hc : f.cash.head? = some c0) :
    sr.dcf.enterprise_value = sr.dcf.pv_fcf_total + sr.dcf.pv_terminal_value ∧
    sr.dcf.equity_value = sr.dcf.enterprise_value - sr.dcf.net_debt ∧
    sr.dcf.net_debt = td0 - c0 := by
  obtain ⟨wd, m, scs, hw, hm, hs, hmr⟩ := runAllScenarios_eq_some h
  subst hmr
  obtain ⟨ks, hks, hstep⟩ := seqMap_mem_exists _ SCENARIOS scs hs (k, sr) hmem
  obtain ⟨p, d, hp, hd, hout⟩ := scenarioStep_eq_some hstep
  have hsr : sr = ScenarioResult.mk ks.2 p d := congrArg Prod.snd hout
  obtain ⟨lf, td0', c0', hlf, htd', hc', hdd⟩ := computeDcf_eq_some hd
  have e1 : td0 = td0' := Option.some_inj.mp (htd.symm.trans htd')
  have e2 : c0 = c0' := Option.some_inj.mp (hc.symm.trans hc')
  subst hsr hdd e1 e2
  refine ⟨rfl, rfl, rfl⟩

/-- Fixture rate environment for witnesses. -/
def fixRates : Rates := ⟨0.04⟩

/-- Single-period fixture financials: revenue 100, operating income 20,
net income 10, tax provision 3, interest expense 1, depreciation 4,
total debt 50, cash 20, capex 5, free cash flow 12. -/
def fixF9 : Financials := mkFin [100] [20] [10] [3] [1] [4] [50] [20] [5] [12]

/-- An `Option` that is `some` equals `some` of its `getD` extraction. -/
theorem eq_some_getD {α : Type} {o : Option α} (h : o.isSome) (d : α) :
    o = some (o.getD d) := by
  cases o with
  | none => simp at h
  | some v => rfl

/-- Destructor for `seqMap` on a cons cell. -/
theorem seqMap_cons_eq_some {α β : Type} {step : α → Option β} {a : α} {t : List α}
    {res : List β} (h : seqMap step (a :: t) = some res) :
    ∃ b r, step a = some b ∧ seqMap step t = some r ∧ res = b :: r := by
  simp only [seqMap, bind, Option.bind_eq_some, pure, Option.some_inj] at h
  obtain ⟨b, h1, r, h2, h3⟩ := h
  exact ⟨b, r, h1, h2, h3.symm⟩

/-- A nonempty list has a `some` head. -/
theorem head?_isSome_of_ne_nil {α : Type} {l : List α} (h : l ≠ []) : l.head?.isSome := by
  cases l with
  | nil => exact absurd rfl h
  | cons a t => rfl

/-- `computeWacc` succeeds whenever the four series it indexes are nonempty. -/
theorem computeWacc_isSome (stock : Stock) (f : Financials) (rates : Rates) (erp : ℚ)
    (htd : f.total_debt ≠ []) (hie : f.interest_expense ≠ [])
    (htp : f.tax_provision ≠ []) (hni : f.net_income ≠ []) :
    (computeWacc stock f rates erp).isSome := by
  obtain ⟨a, ha⟩ := Option.isSome_iff_exists.mp (head?_isSome_of_ne_nil htd)
  obtain ⟨b, hb⟩ := Option.isSome_iff_exists.mp (head?_isSome_of_ne_nil hie)
  obtain ⟨c, hc⟩ := Option.isSome_iff_exists.mp (head?_isSome_of_ne_nil htp)
  obtain ⟨e, he⟩ := Option.isSome_iff_exists.mp (head?_isSome_of_ne_nil hni)
  simp [computeWacc, bind, ha, hb, hc, he, pure]

/-- `compute_historical_metrics` succeeds whenever the five series indexed by
the margin/ratio loops are at least as long as `revenue`. -/
theorem computeHistoricalMetrics_isSome (f : Financials)
    (hoi : f.revenue.length ≤ f.operating_income.length)
    (hni : f.revenue.length ≤ f.net_income.length)
    (hfcf : f.revenue.length ≤ f.free_cash_flow.length)
    (hcx : f.revenue.length ≤ f.capex.length)
    (hdp : f.revenue.length ≤ f.depreciation.length) :
    (computeHistoricalMetrics f).isSome := by
  have hr : ∀ (num : List ℚ), f.revenue.length ≤ num.length →
      ∀ i ∈ List.range f.revenue.length, (periodRatio f.revenue num i).isSome := by
    intro num hlen i hi
    rw [List.mem_range] at hi
    unfold periodRatio
    dsimp only
    split
    · rfl
    · have hlt : i < num.length := lt_of_lt_of_le hi hlen
      rcases hx : num[i]? with _ | x
      · rw [List.getElem?_eq_none_iff] at hx
        omega
      · rfl
  have ha : ∀ (num : List ℚ), f.revenue.length ≤ num.length →
      ∀ i ∈ List.range f.revenue.length, (periodAbsRatio f.revenue num i).isSome := by
    intro num hlen i hi
    rw [List.mem_range] at hi
    unfold periodAbsRatio
    dsimp only
    split
    · rfl
    · have hlt : i < num.length := lt_of_lt_of_le hi hlen
      rcases hx : num[i]? with _ | x
      · rw [List.getElem?_eq_none_iff] at hx
        omega
      · rfl
  obtain ⟨l1, h1⟩ := Option.isSome_iff_exists.mp (seqMap_isSome _ _ (hr _ hoi))
  obtain ⟨l2, h2⟩ := Option.isSome_iff_exists.mp (seqMap_isSome _ _ (hr _ hni))
  obtain ⟨l3, h3⟩ := Option.isSome_iff_exists.mp (seqMap_isSome _ _ (hr _ hfcf))
  obtain ⟨l4, h4⟩ := Option.isSome_iff_exists.mp (seqMap_isSome _ _ (ha _ hcx))
  obtain ⟨l5, h5⟩ := Option.isSome_iff_exists.mp (seqMap_isSome _ _ (ha _ hdp))
  simp [computeHistoricalMetrics, bind, h1, h2, h3, h4, h5, pure]

/-- `project_fcf` succeeds whenever the three series it indexes are
nonempty. -/
theorem projectFcf_isSome (f : Financials) (m : Metrics) (s : Scenario) (N : ℕ)
    (hrev : f.revenue ≠ []) (htp : f.tax_provision ≠ []) (hni : f.net_income ≠ []) :
    (projectFcf f m s N).isSome := by
  obtain ⟨a, ha⟩ := Option.isSome_iff_exists.mp (head?_isSome_of_ne_nil hrev)
  obtain ⟨b, hb⟩ := Option.isSome_iff_exists.mp (head?_isSome_of_ne_nil htp)
  obtain ⟨c, hc⟩ := Option.isSome_iff_exists.mp (head?_isSome_of_ne_nil hni)
  simp [projectFcf, bind, ha, hb, hc, pure]

/-- The projected-FCF path of a projection over `N` years has length `N`. -/
theorem projectFcfCore_fcf_length (m : Metrics) (s : Scenario) (N : ℕ) (br tp0 ni0 : ℚ) :
    (projectFcfCore m s N br tp0 ni0).projected_fcf.length = N := by
  simp [projectFcfCore]

/-- `compute_dcf` succeeds whenever the projected-FCF path is nonempty and
`total_debt`/`cash` are nonempty. -/
theorem computeDcf_isSome (p : Projection) (wd : WaccData) (s : Scenario)
    (stock : Stock) (f : Financials) (tgc : ℚ)
    (hfcf : p.projected_fcf ≠ []) (htd : f.total_debt ≠ []) (hca : f.cash ≠ []) :
    (computeDcf p wd s stock f tgc).isSome := by
  have hlast : p.projected_fcf.getLast?.isSome := by
    rw [List.getLast?_isSome]
    exact hfcf
  obtain ⟨a, ha⟩ := Option.isSome_iff_exists.mp hlast
  obtain ⟨b, hb⟩ := Option.isSome_iff_exists.mp (head?_isSome_of_ne_nil htd)
  obtain ⟨c, hc⟩ := Option.isSome_iff_exists.mp (head?_isSome_of_ne_nil hca)
  simp [computeDcf, bind, ha, hb, hc, pure]

/-- `run_all_scenarios` succeeds — with no structural length validation —
whenever every index its components touch is in range: the index-0 series
are nonempty, the five metric series are at least as long as `revenue`, and
the horizon is at least one year.  Mismatched series lengths are not
checked anywhere. -/
theorem runAllScenarios_isSome (stock : Stock) (f : Financials) (rates : Rates)
    (N : ℕ) (tgc erp : ℚ) (hN : 1 ≤ N)
    (hrev : f.revenue ≠ []) (htd : f.total_debt ≠ []) (hie : f.interest_expense ≠ [])
    (htp : f.tax_provision ≠ []) (hni0 : f.net_income ≠ []) (hca : f.cash ≠ [])
    (hoi : f.revenue.length ≤ f.operating_income.length)
    (hni : f.revenue.length ≤ f.net_income.length)
    (hfcf : f.revenue.length ≤ f.free_cash_flow.length)
    (hcx : f.revenue.length ≤ f.capex.length)
    (hdp : f.revenue.length ≤ f.depreciation.length) :
    (runAllScenarios stock f rates N tgc erp).isSome := by
  obtain ⟨wd, hwd⟩ := Option.isSome_iff_exists.mp
    (computeWacc_isSome stock f rates erp htd hie htp hni0)
  obtain ⟨m, hm⟩ := Option.isSome_iff_exists.mp
    (computeHistoricalMetrics_isSome f hoi hni hfcf hcx hdp)
  have hstep : ∀ ks ∈ SCENARIOS, (scenarioStep stock f wd m N tgc ks).isSome := by
    intro ks _
    obtain ⟨p, hp⟩ := Option.isSome_iff_exists.mp
      (projectFcf_isSome f m ks.2 N hrev htp hni0)
    obtain ⟨br, tp0, ni0, _, _, _, hpc⟩ := projectFcf_eq_some hp
    have hne : p.projected_fcf ≠ [] := by
      rw [hpc]
      intro hnil
      have := projectFcfCore_fcf_length m ks.2 N br tp0 ni0
      rw [hnil] at this
      simp at this
      omega
    obtain ⟨d, hd⟩ := Option.isSome_iff_exists.mp
      (computeDcf_isSome p wd ks.2 stock f tgc hne htd hca)
    simp [scenarioStep, bind, hp, hd, pure]
  obtain ⟨scs, hscs⟩ := Option.isSome_iff_exists.mp (seqMap_isSome _ _ hstep)
  simp [runAllScenarios, bind, hwd, hm, hscs, pure]

/-- Default records used only to extract values from `Option`/`List` in
witness fixtures. -/
def dcfDefault : Dcf := ⟨"", 0, 0, [], 0, 0, 0, 0, 0, 0, 0, 0, 0, 0⟩

/-- Default scenario result (see `dcfDefault`). -/
def srDefault : ScenarioResult := ⟨baseScenario, fixP5, dcfDefault⟩

/-- Default model result (see `dcfDefault`). -/
def mrDefault : ModelResult := ⟨⟨0, 0, 0, 0, 0, 0, 0, 0, 0, 0, 0⟩, fixM0, [], 0, 0⟩

/-- The one-year run over `fixF9`. -/
def runF9 : Option ModelResult := runAllScenarios fixStock fixF9 fixRates 1 0.025 0.055

/-- The concrete model result of `runF9`. -/
def mr9 : ModelResult := runF9.getD mrDefault

/-- The base-case entry of `mr9`. -/
def sr9 : ScenarioResult := (mr9.scenarios.getD 0 ("", srDefault)).2

/-- Concrete instantiation of `C9_bridge_identity` on the base scenario of a
one-year run over `fixF9`. -/
theorem C9_bridge_identity_witness :
    runF9 = some mr9 ∧ ("base", sr9) ∈ mr9.scenarios ∧
    sr9.dcf.enterprise_value = sr9.dcf.pv_fcf_total + sr9.dcf.pv_terminal_value ∧
    sr9.dcf.equity_value = sr9.dcf.enterprise_value - sr9.dcf.net_debt ∧
    sr9.dcf.net_debt = 50 - 20 := by
  have hS : runF9.isSome :=
    runAllScenarios_isSome fixStock fixF9 fixRates 1 0.025 0.055 (le_refl 1)
      (by simp [fixF9, mkFin]) (by simp [fixF9, mkFin]) (by simp [fixF9, mkFin])
      (by simp [fixF9, mkFin]) (by simp [fixF9, mkFin]) (by simp [fixF9, mkFin])
      (by simp [fixF9, mkFin]) (by simp [fixF9, mkFin]) (by simp [fixF9, mkFin])
      (by simp [fixF9, mkFin]) (by simp [fixF9, mkFin])
  have h1 : runF9 = some mr9 := eq_some_getD hS mrDefault
  have h1' : runAllScenarios fixStock fixF9 fixRates 1 0.025 0.055 = some mr9 := h1
  obtain ⟨wd, m, scs, hw, hm, hs, hmr⟩ := runAllScenarios_eq_some h1'
  obtain ⟨b, r, hb, hr2, hscs⟩ := seqMap_cons_eq_some hs
  obtain ⟨p, d, hp, hd, hout⟩ := scenarioStep_eq_some hb
  subst hscs
  have hsr : sr9 = b.2 := by
    show (mr9.scenarios.getD 0 ("", srDefault)).2 = b.2
    rw [hmr]
    rfl
  have hb1 : b.1 = "base" := by rw [hout]
  have hmem : ("base", sr9) ∈ mr9.scenarios := by
    rw [hmr]
    show ("base", sr9) ∈ b :: r
    rw [hsr, ← hb1]
    exact List.mem_cons_self b r
  exact ⟨h1, hmem,
    C9_bridge_identity fixStock fixF9 fixRates 1 0.025 0.055 mr9 h1'
      "base" sr9 hmem 50 20 rfl rfl⟩

/-- A misaligned fixture: `operating_income` has two periods while every
other series has one. -/
def fixF1 : Financials := mkFin [100] [20, 18] [10] [3] [1] [4] [50] [20] [5] [12]

/-- Another misaligned fixture: `net_income` has two periods while every
other series has one. -/
def fixF1b : Financials := mkFin [100] [20] [10, 9] [3] [1] [4] [50] [20] [5] [12]

/-- Counterexample to claim C1: on `fixF1` the 23 named series do not all
have identical length, yet the valuation run completes and produces a
numeric result — there is no structural fail-fast check anywhere in
`run_all_scenarios`. -/
theorem C1_misaligned_run_counterexample :
    fixF1.operating_income.length ≠ fixF1.revenue.length ∧
    (runAllScenarios fixStock fixF1 fixRates 5 0.025 0.055).isSome = true := by
  constructor
  · simp [fixF1, mkFin]
  · exact runAllScenarios_isSome fixStock fixF1 fixRates 5 0.025 0.055 (by norm_num)
      (by simp [fixF1, mkFin]) (by simp [fixF1, mkFin]) (by simp [fixF1, mkFin])
      (by simp [fixF1, mkFin]) (by simp [fixF1, mkFin]) (by simp [fixF1, mkFin])
      (by simp [fixF1, mkFin]) (by simp [fixF1, mkFin]) (by simp [fixF1, mkFin])
      (by simp [fixF1, mkFin]) (by simp [fixF1, mkFin])

/-- Claim C1 (amended): `run_all_scenarios` performs no structural length
validation at all.  Whenever every index the pipeline touches is in range —
the index-0 series nonempty, the five series consulted by the metrics loops
at least as long as `revenue`, and the horizon at least one year — the run
succeeds and produces numeric results, even when the series lengths are
mismatched; a mismatch can only surface later as an out-of-range index
failure inside metric computation, after the WACC computation has already
been performed. -/
theorem C1_no_structural_fail_fast (stock : Stock) (f : Financials) (rates : Rates)
    (N : ℕ) (tgc erp : ℚ) (hN : 1 ≤ N)
    (hrev : f.revenue ≠ []) (htd : f.total_debt ≠ []) (hie : f.interest_expense ≠ [])
    (htp : f.tax_provision ≠ []) (hni0 : f.net_income ≠ []) (hca : f.cash ≠ [])
    (hoi : f.revenue.length ≤ f.operating_income.length)
    (hni : f.revenue.length ≤ f.net_income.length)
    (hfcf : f.revenue.length ≤ f.free_cash_flow.length)
    (hcx : f.revenue.length ≤ f.capex.length)
    (hdp : f.revenue.length ≤ f.depreciation.length) :
    (runAllScenarios stock f rates N tgc erp).isSome :=
  runAllScenarios_isSome stock f rates N tgc erp hN hrev htd hie htp hni0 hca
    hoi hni hfcf hcx hdp

/-- Concrete instantiation of `C1_no_structural_fail_fast` on the misaligned
fixture `fixF1b` (`net_income` longer than `revenue`): the run succeeds. -/
theorem C1_no_structural_fail_fast_witness :
    fixF1b.net_income.length ≠ fixF1b.revenue.length ∧
    (runAllScenarios fixStock fixF1b fixRates 1 0.025 0.055).isSome = true :=
  ⟨by simp [fixF1b, mkFin],
   C1_no_structural_fail_fast fixStock fixF1b fixRates 1 0.025 0.055 (by norm_num)
      (by simp [fixF1b, mkFin]) (by simp [fixF1b, mkFin]) (by simp [fixF1b, mkFin])
      (by simp [fixF1b, mkFin]) (by simp [fixF1b, mkFin]) (by simp [fixF1b, mkFin])
      (by simp [fixF1b, mkFin]) (by simp [fixF1b, mkFin]) (by simp [fixF1b, mkFin])
      (by simp [fixF1b, mkFin]) (by simp [fixF1b, mkFin])⟩

/-- Claim C6: for every scenario, horizon `N >= 1` and year `t` in `1..N`,
projected revenue equals `base_revenue * (1 + growth_t) ^ t` with
`growth_t = adj_growth * (1 - (t-1)/(2N))`, floored at `0.005` only when
`adj_growth > 0` — the anchor-and-power form, not a running compounding
recursion off the previous year's revenue. -/
theorem C6_revenue_anchor_power
    (f : Financials) (m : Metrics) (s : Scenario) (N t : ℕ) (p : Projection) (br : ℚ)
    (h : projectFcf f m s N = some p) (hbr : f.revenue.head? = some br)
    (hN : 1 ≤ N) (ht1 : 1 ≤ t) (htN : t ≤ N) :
    p.projected_revenue[t - 1]? =
      some (br * (1 +
        (if max (m.avg_revenue_growth + s.revenue_growth_adj) (-0.15) > 0
         then max ((max (m.avg_revenue_growth + s.revenue_growth_adj) (-0.15)) *
                (1 - ((t : ℚ) - 1) / (2 * (N : ℚ)))) 0.005
         else (max (m.avg_revenue_growth + s.revenue_growth_adj) (-0.15)) *
                (1 - ((t : ℚ) - 1) / (2 * (N : ℚ))))) ^ t) := by
  obtain ⟨br', tp0, ni0, hbr', _, _, hp⟩ := projectFcf_eq_some h
  have hbe : br' = br := Option.some_inj.mp (hbr'.symm.trans hbr)
  subst hbe hp
  simp only [projectFcfCore]
  rw [List.getElem?_map, List.getElem?_map, List.getElem?_range (show t - 1 < N by omega)]
  simp only [Option.map_some']
  have ht : t - 1 + 1 = t := Nat.succ_pred_eq_of_pos ht1
  rw [ht]
  unfold fadeGrowth
  rw [mul_comm ((N : ℚ)) 2]

/-- Concrete instantiation of `C6_revenue_anchor_power`: one-year projection
over `fixF9` under the base scenario with zero baseline growth. -/
theorem C6_revenue_anchor_power_witness :
    ((projectFcf fixF9 fixM0 baseScenario 1).getD fixP5).projected_revenue[0]? =
      some 100 := by
  have h := C6_revenue_anchor_power fixF9 fixM0 baseScenario 1 1
    ((projectFcf fixF9 fixM0 baseScenario 1).getD fixP5) 100
    (eq_some_getD (projectFcf_isSome fixF9 fixM0 baseScenario 1
      (by simp [fixF9, mkFin]) (by simp [fixF9, mkFin]) (by simp [fixF9, mkFin])) fixP5)
    rfl (le_refl 1) (le_refl 1) (le_refl 1)
  rw [h]
  norm_num [fixM0, baseScenario, max_def]

/-- Claim C7: in the discount-rate x terminal-growth sensitivity grid, every
cell whose row WACC is at most its column terminal growth holds the
non-numeric "N/A" marker (`none`), and the Gordon-growth division is never
performed there, for all grid configurations. -/
theorem C7_sensitivity_na_rule (stock : Stock) (mr : ModelResult)
    (grid : List (List (Option ℚ)))
    (h : buildWaccTgGrid stock mr = some grid) (i j : ℕ) (w tg : ℚ)
    (hw : (waccRange mr.wacc_data.wacc)[i]? = some w)
    (ht : (tgRange mr.terminal_growth)[j]? = some tg)
    (hwt : w ≤ tg) :
    grid[i]?.bind (fun row => row[j]?) = some none := by
  simp only [buildWaccTgGrid, bind, Option.bind_eq_some, pure, Option.some_inj] at h
  obtain ⟨base, h1, lf, h2, hgrid⟩ := h
  subst hgrid
  rw [List.getElem?_map, hw]
  simp only [Option.map_some', Option.some_bind]
  rw [List.getElem?_map, ht]
  simp only [Option.map_some', Option.some_inj]
  rw [sensCell, if_pos hwt]

/-- A hand-built model result whose base WACC `0.05` and terminal growth
`0.05` put the top-left-to-top-right corner cell in the invalid region. -/
def mrW7 : ModelResult :=
  ⟨⟨0.05, 0, 0, 0, 0, 0, 0, 0, 0, 0, 0⟩, fixM0, [("base", srDefault)], 1, 0.05⟩

/-- The grid built over `mrW7`. -/
def gridW7 : List (List (Option ℚ)) := (buildWaccTgGrid fixStock mrW7).getD []

/-- Concrete instantiation of `C7_sensitivity_na_rule`: the cell with row
WACC `0.04` and column terminal growth `0.065` is "N/A". -/
theorem C7_sensitivity_na_rule_witness :
    gridW7[0]?.bind (fun row => row[6]?) = some none :=
  C7_sensitivity_na_rule fixStock mrW7 gridW7
    (eq_some_getD (by rfl) [])
    0 6 0.04 0.065
    (by norm_num [waccRange, mrW7, max_def])
    (by norm_num [tgRange, mrW7, max_def])
    (by norm_num)

/-- Claim C8: for a single-period input (`K = 1`), the YoY growth-rate list
is empty, `avg_revenue_growth` equals the default `0.05` exactly, and each
margin/ratio series is the singleton of the period's own value, so each
average (operating margin, net margin via its singleton series, FCF margin,
capex percent, D&A percent) equals the single period's own value exactly. -/
theorem C8_single_period_metrics (r o nv tp ie dp td ca cx fc : ℚ) :
    computeHistoricalMetrics (mkFin [r] [o] [nv] [tp] [ie] [dp] [td] [ca] [cx] [fc]) =
      some ⟨[], [if r = 0 then 0 else o / r], [if r = 0 then 0 else nv / r],
            [if r = 0 then 0 else fc / r], [if r = 0 then 0 else |cx| / r],
            [if r = 0 then 0 else |dp| / r],
            0.05,
            if r = 0 then 0 else o / r,
            if r = 0 then 0 else fc / r,
            if r = 0 then 0 else |cx| / r,
            if r = 0 then 0 else |dp| / r⟩ := by
  by_cases hr : r = 0 <;>
    simp [computeHistoricalMetrics, mkFin, seqMap, periodRatio, periodAbsRatio,
      avgOr, hr, bind, pure, List.range_succ, List.range_zero]

/-- Fixture with `net_income[0] = 0` and `tax_provision[0] = 5`. -/
def fixF3 : Financials := mkFin [100] [20] [0] [5] [1] [4] [50] [20] [5] [12]

/-- Counterexample to claim C3: with `net_income[0] = 0` and
`tax_provision[0] = 5`, `compute_wacc` substitutes `pretax_income = 1`
(tax rate `5`), while `project_fcf` uses `pretax = |0| + 5 = 5`
(tax rate `1`) — the two locally recomputed tax rates disagree. -/
theorem C3_tax_rate_counterexample :
    (computeWacc fixStock fixF3 fixRates 0.055).map (fun wd => wd.tax_rate) = some 5 ∧
    (projectFcf fixF3 fixM0 baseScenario 1).map (fun p => p.tax_rate) = some 1 ∧
    (5 : ℚ) ≠ 1 := by
  refine ⟨?_, ?_, by norm_num⟩
  · norm_num [computeWacc, computeWaccCore, fixF3, mkFin, fixStock, fixRates, bind, pure]
  · norm_num [projectFcf, projectFcfCore, projTaxRate, fixF3, mkFin, bind, pure]

/-- Claim C3 (amended): whenever `net_income[0]` is nonzero, the tax rate
used by the Cash Flow Projector equals the effective tax rate computed by
the WACC Calculator on the same input, and both equal
`|tax_provision[0]| / (|net_income[0]| + |tax_provision[0]|)`.  When
`net_income[0] = 0` the two guards differ (`compute_wacc` substitutes a
pretax income of `1`; `project_fcf` uses `|tax_provision[0]|` or the `0.21`
fallback) and the values can disagree. -/
theorem C3_tax_rate_agreement
    (stock : Stock) (f : Financials) (rates : Rates) (erp : ℚ) (wd : WaccData)
    (m : Metrics) (s : Scenario) (N : ℕ) (p : Projection) (tp0 ni0 : ℚ)
    (hw : computeWacc stock f rates erp = some wd)
    (hp : projectFcf f m s N = some p)
    (htp : f.tax_provision.head? = some tp0)
    (hni : f.net_income.head? = some ni0)
    (hnz : ni0 ≠ 0) :
    wd.tax_rate = p.tax_rate ∧
    wd.tax_rate = |tp0| / (|ni0| + |tp0|) := by
  obtain ⟨td0', ie0', tp0', ni0', _, _, htp', hni', hwd⟩ := computeWacc_eq_some hw
  obtain ⟨br, tp0'', ni0'', _, htp'', hni'', hpp⟩ := projectFcf_eq_some hp
  rw [show tp0 = tp0' from Option.some_inj.mp (htp.symm.trans htp')]
  rw [show ni0 = ni0' from Option.some_inj.mp (hni.symm.trans hni')] at hnz ⊢
  have e3 : tp0'' = tp0' := Option.some_inj.mp (htp''.symm.trans htp')
  have e4 : ni0'' = ni0' := Option.some_inj.mp (hni''.symm.trans hni')
  rw [e3, e4] at hpp
  subst hwd hpp
  clear htp hni htp' hni' htp'' hni''
  rename' tp0' => tp0, ni0' => ni0
  simp only [computeWaccCore, projectFcfCore, projTaxRate]
  have hA : (if tp0 = 0 then 0 else |tp0|) = |tp0| := by
    by_cases h : tp0 = 0 <;> simp [h]
  rw [hA]
  have hpre : (0 : ℚ) < |ni0| + |tp0| :=
    add_pos_of_pos_of_nonneg (abs_pos.mpr hnz) (abs_nonneg tp0)
  rw [if_neg hnz, if_pos hpre]
  exact ⟨rfl, rfl⟩

/-- Default WACC breakdown used for `Option` extraction in fixtures. -/
def wdDefault : WaccData := ⟨0, 0, 0, 0, 0, 0, 0, 0, 0, 0, 0⟩

/-- Concrete instantiation of `C3_tax_rate_agreement` on `fixF9`
(`net_income[0] = 10`, `tax_provision[0] = 3`). -/
theorem C3_tax_rate_agreement_witness :
    ((computeWacc fixStock fixF9 fixRates 0.055).getD wdDefault).tax_rate =
      ((projectFcf fixF9 fixM0 baseScenario 1).getD fixP5).tax_rate ∧
    ((computeWacc fixStock fixF9 fixRates 0.055).getD wdDefault).tax_rate =
      |(3 : ℚ)| / (|(10 : ℚ)| + |(3 : ℚ)|) :=
  C3_tax_rate_agreement fixStock fixF9 fixRates 0.055
    ((computeWacc fixStock fixF9 fixRates 0.055).getD wdDefault)
    fixM0 baseScenario 1
    ((projectFcf fixF9 fixM0 baseScenario 1).getD fixP5) 3 10
    (eq_some_getD (computeWacc_isSome fixStock fixF9 fixRates 0.055
      (by simp [fixF9, mkFin]) (by simp [fixF9, mkFin]) (by simp [fixF9, mkFin])
      (by simp [fixF9, mkFin])) wdDefault)
    (eq_some_getD (projectFcf_isSome fixF9 fixM0 baseScenario 1
      (by simp [fixF9, mkFin]) (by simp [fixF9, mkFin]) (by simp [fixF9, mkFin])) fixP5)
    rfl rfl (by norm_num)

/-- Fixture with negative `total_debt[0] = -5` and `interest_expense[0] = 3`. -/
def fixF4 : Financials := mkFin [100] [20] [10] [3] [3] [4] [-5] [20] [5] [12]

/-- Counterexample to claim C4: with `total_debt[0] = -5` (nonzero) and
`interest_expense[0] = 3`, the code's `debt > 0` guard fails and the cost of
debt falls back to the risk-free rate `0.04`, not
`|interest_expense[0]| / total_debt[0] = -3/5`. -/
theorem C4_cost_of_debt_counterexample :
    (computeWacc fixStock fixF4 fixRates 0.055).map (fun wd => wd.cost_of_debt) =
      some 0.04 ∧
    (0.04 : ℚ) ≠ |(3 : ℚ)| / (-5) := by
  constructor
  · norm_num [computeWacc, computeWaccCore, fixF4, mkFin, fixStock, fixRates, bind, pure]
  · norm_num

/-- Claim C4 (amended): whenever `total_debt[0] >= 0`, the cost of debt
equals `|interest_expense[0]|` divided by the substituted denominator
(`total_debt[0]` when nonzero, else `1`); in particular with
`total_debt[0] = 0` and `interest_expense[0] = 0` the result is exactly `0`
(no division fault, no risk-free fallback).  With negative `total_debt[0]`
the code instead falls back to the risk-free rate. -/
theorem C4_cost_of_debt
    (stock : Stock) (f : Financials) (rates : Rates) (erp : ℚ) (wd : WaccData)
    (td0 ie0 : ℚ)
    (hw : computeWacc stock f rates erp = some wd)
    (htd : f.total_debt.head? = some td0)
    (hie : f.interest_expense.head? = some ie0)
    (hnn : 0 ≤ td0) :
    wd.cost_of_debt = |ie0| / (if td0 = 0 then 1 else td0) ∧
    (td0 = 0 → ie0 = 0 → wd.cost_of_debt = 0) := by
  obtain ⟨td0', ie0', tp0', ni0', htd', hie', _, _, hwd⟩ := computeWacc_eq_some hw
  rw [show td0 = td0' from Option.some_inj.mp (htd.symm.trans htd')] at hnn ⊢
  rw [show ie0 = ie0' from Option.some_inj.mp (hie.symm.trans hie')]
  subst hwd
  clear htd hie htd' hie'
  rename' td0' => td0, ie0' => ie0
  simp only [computeWaccCore]
  have hI : (if ie0 = 0 then 0 else |ie0|) = |ie0| := by
    by_cases h : ie0 = 0 <;> simp [h]
  rw [hI]
  constructor
  · by_cases h0 : td0 = 0
    · rw [if_pos h0, if_pos (by norm_num : (1 : ℚ) > 0)]
    · rw [if_neg h0, if_pos (lt_of_le_of_ne hnn (Ne.symm h0))]
  · intro h0 hie0
    rw [if_pos h0, if_pos (by norm_num : (1 : ℚ) > 0), hie0]
    norm_num

/-- Concrete instantiation of `C4_cost_of_debt` on `fixF9`
(`total_debt[0] = 50`, `interest_expense[0] = 1`). -/
theorem C4_cost_of_debt_witness :
    ((computeWacc fixStock fixF9 fixRates 0.055).getD wdDefault).cost_of_debt =
      |(1 : ℚ)| / (if (50 : ℚ) = 0 then 1 else 50) :=
  (C4_cost_of_debt fixStock fixF9 fixRates 0.055
    ((computeWacc fixStock fixF9 fixRates 0.055).getD wdDefault) 50 1
    (eq_some_getD (computeWacc_isSome fixStock fixF9 fixRates 0.055
      (by simp [fixF9, mkFin]) (by simp [fixF9, mkFin]) (by simp [fixF9, mkFin])
      (by simp [fixF9, mkFin])) wdDefault)
    rfl rfl (by norm_num)).1

/-- When the positive-growth floor cannot bind over the horizon (growth
non-positive, or still at least `0.005` after the deepest fade), the faded
rate is exactly the unfloored product. -/
theorem fadeGrowth_eq_unfloored (gr : ℚ) (n yr : ℕ) (h1 : 1 ≤ yr) (h2 : yr ≤ n)
    (hgr : gr ≤ 0 ∨ 0.005 ≤ gr * (1 - ((n : ℚ) - 1) / ((n : ℚ) * 2))) :
    fadeGrowth gr n yr = gr * (1 - ((yr : ℚ) - 1) / ((n : ℚ) * 2)) := by
  unfold fadeGrowth
  dsimp only
  rcases hgr with hle | hge
  · rw [if_neg (not_lt.mpr hle)]
  · have hn1 : 1 ≤ n := le_trans h1 h2
    have hcn : (1 : ℚ) ≤ (n : ℚ) := by exact_mod_cast hn1
    have hpos2n : (0 : ℚ) < (n : ℚ) * 2 := by linarith
    have hfn : (0 : ℚ) < 1 - ((n : ℚ) - 1) / ((n : ℚ) * 2) := by
      rw [sub_pos, div_lt_one hpos2n]
      linarith
    have hgpos : 0 < gr := by
      by_contra hng
      push_neg at hng
      nlinarith
    rw [if_pos hgpos, max_eq_left]
    have hcy : ((yr : ℚ) - 1) ≤ ((n : ℚ) - 1) := by
      have : (yr : ℚ) ≤ (n : ℚ) := by exact_mod_cast h2
      linarith
    have hmono : ((yr : ℚ) - 1) / ((n : ℚ) * 2) ≤ ((n : ℚ) - 1) / ((n : ℚ) * 2) :=
      (div_le_div_iff_of_pos_right hpos2n).mpr hcy
    calc (0.005 : ℚ) ≤ gr * (1 - ((n : ℚ) - 1) / ((n : ℚ) * 2)) := hge
      _ ≤ gr * (1 - ((yr : ℚ) - 1) / ((n : ℚ) * 2)) :=
          mul_le_mul_of_nonneg_left (by linarith) hgpos.le

/-- Claim C2 (amended): a cell of the revenue-growth x operating-margin
grid agrees with the price from re-running the Cash Flow Projector with the
cell's growth/margin as baseline and valuing via the DCF Valuator at the
base-case WACC and configured terminal growth, **provided** the floors and
clamps the grid omits cannot bind: cell growth at least `-0.15` and either
non-positive or large enough that the `0.005` per-year floor is idle, base
WACC already at least `0.04`, and configured terminal growth already inside
`[0.005, base WACC - 0.01]`.  Outside these conditions the grid, which
omits the projector's growth floors and the valuator's WACC/terminal-growth
clamps, can differ (see the counterexample). -/
theorem C2_growth_margin_grid_refines_projector
    (f : Financials) (stock : Stock) (wd : WaccData) (mm : Metrics)
    (n : ℕ) (tgc gr mg : ℚ) (p : Projection) (d : Dcf)
    (hp : projectFcf f mm baseScenario n = some p)
    (hd : computeDcf p wd baseScenario stock f tgc = some d)
    (hn : 1 ≤ n)
    (hw04 : 0.04 ≤ wd.wacc)
    (htg1 : 0.005 ≤ tgc) (htg2 : tgc ≤ wd.wacc - 0.01)
    (hgrlo : -0.15 ≤ gr)
    (hgr : gr ≤ 0 ∨ 0.005 ≤ gr * (1 - ((n : ℚ) - 1) / ((n : ℚ) * 2))) :
    growthMarginCell f stock wd mm p d n tgc gr mg =
      projectorCellPrice f stock wd mm n tgc gr mg := by
  obtain ⟨br, tp0, ni0, hbr, htp, hni, hpc⟩ := projectFcf_eq_some hp
  obtain ⟨lf, td0, c0, hlf, htd, hc, hdc⟩ := computeDcf_eq_some hd
  have htax : p.tax_rate = projTaxRate tp0 ni0 := by rw [hpc]; rfl
  have hnd : d.net_debt = td0 - c0 := by rw [hdc]; rfl
  have hp' : projectFcf f { mm with avg_revenue_growth := gr, avg_operating_margin := mg }
      baseScenario n =
      some (projectFcfCore { mm with avg_revenue_growth := gr, avg_operating_margin := mg }
        baseScenario n br tp0 ni0) := by
    simp [projectFcf, bind, hbr, htp, hni, pure]
  have hfcne :
      (projectFcfCore { mm with avg_revenue_growth := gr, avg_operating_margin := mg }
        baseScenario n br tp0 ni0).projected_fcf ≠ [] := by
    intro hnil
    have hlen := projectFcfCore_fcf_length
      { mm with avg_revenue_growth := gr, avg_operating_margin := mg } baseScenario n br tp0 ni0
    rw [hnil] at hlen
    simp at hlen
    omega
  obtain ⟨lf', hlf'⟩ := Option.isSome_iff_exists.mp
    ((List.getLast?_isSome).mpr hfcne)
  have hd' : computeDcf
      (projectFcfCore { mm with avg_revenue_growth := gr, avg_operating_margin := mg }
        baseScenario n br tp0 ni0) wd baseScenario stock f tgc =
      some (computeDcfCore
        (projectFcfCore { mm with avg_revenue_growth := gr, avg_operating_margin := mg }
          baseScenario n br tp0 ni0) wd baseScenario stock tgc lf' td0 c0) := by
    simp [computeDcf, bind, hlf', htd, hc, pure]
  -- the grid's FCF path equals the projector's
  have hlist :
      (((List.range n).map (fun i => i + 1)).map (fun (yr : ℕ) =>
        let fade : ℚ := 1 - ((yr : ℚ) - 1) / ((n : ℚ) * 2)
        let g := gr * fade
        let rev := br * (1 + g) ^ yr
        let ebit := rev * max mg 0.01
        let nopat := ebit * (1 - p.tax_rate)
        let da := rev * mm.avg_da_pct
        let capex := rev * mm.avg_capex_pct
        nopat + da - capex)) =
      (projectFcfCore { mm with avg_revenue_growth := gr, avg_operating_margin := mg }
        baseScenario n br tp0 ni0).projected_fcf := by
    simp only [projectFcfCore]
    apply List.map_congr_left
    intro yr hyr
    obtain ⟨i, hi, hiy⟩ := List.mem_map.mp hyr
    rw [List.mem_range] at hi
    have hyr1 : 1 ≤ yr := by omega
    have hyrn : yr ≤ n := by omega
    rw [htax]
    rw [show max (({ mm with avg_revenue_growth := gr, avg_operating_margin := mg} :
          Metrics).avg_revenue_growth + baseScenario.revenue_growth_adj) (-0.15) = gr by
        show max (gr + baseScenario.revenue_growth_adj) (-0.15) = gr
        rw [show baseScenario.revenue_growth_adj = 0 from rfl, add_zero]
        exact max_eq_left hgrlo]
    rw [fadeGrowth_eq_unfloored gr n yr hyr1 hyrn hgr]
    show br * (1 + gr * (1 - ((yr : ℚ) - 1) / ((n : ℚ) * 2))) ^ yr * max mg 0.01 *
        (1 - projTaxRate tp0 ni0) +
        br * (1 + gr * (1 - ((yr : ℚ) - 1) / ((n : ℚ) * 2))) ^ yr * mm.avg_da_pct -
        br * (1 + gr * (1 - ((yr : ℚ) - 1) / ((n : ℚ) * 2))) ^ yr * mm.avg_capex_pct =
      br * (1 + gr * (1 - ((yr : ℚ) - 1) / ((n : ℚ) * 2))) ^ yr *
        max (mg + baseScenario.margin_adj) 0.01 * (1 - projTaxRate tp0 ni0) +
        br * (1 + gr * (1 - ((yr : ℚ) - 1) / ((n : ℚ) * 2))) ^ yr * mm.avg_da_pct -
        br * (1 + gr * (1 - ((yr : ℚ) - 1) / ((n : ℚ) * 2))) ^ yr * mm.avg_capex_pct
    rw [show baseScenario.margin_adj = 0 from rfl, add_zero]
  -- assemble both sides
  have hRHS : projectorCellPrice f stock wd mm n tgc gr mg =
      some ((computeDcfCore
        (projectFcfCore { mm with avg_revenue_growth := gr, avg_operating_margin := mg }
          baseScenario n br tp0 ni0) wd baseScenario stock tgc lf' td0 c0).implied_share_price) := by
    simp [projectorCellPrice, bind, hp', hd', pure]
  rw [hRHS]
  simp only [growthMarginCell, bind]
  rw [hbr]
  simp only [Option.some_bind]
  rw [hlist, hlf']
  simp only [Option.some_bind, pure]
  simp only [computeDcfCore]
  rw [hnd]
  rw [projectFcfCore_fcf_length]
  rw [show max (wd.wacc + baseScenario.wacc_adj) 0.04 = wd.wacc from by
    rw [show baseScenario.wacc_adj = 0 from rfl, add_zero]
    exact max_eq_left hw04]
  rw [show max (min (tgc + baseScenario.terminal_growth_adj) (wd.wacc - 0.01)) 0.005 = tgc from by
    rw [show baseScenario.terminal_growth_adj = 0 from rfl, add_zero, min_eq_left htg2]
    exact max_eq_left htg1]
  rw [if_pos (show wd.wacc > tgc by linarith)]

/-- Two-period fixture whose average revenue growth is `0.044`, so the
grid's `-4%` growth row lands at `0.004` — inside `(0, 0.005)` where the
projector's positive-growth floor binds but the grid applies none. -/
def fixF2 : Financials :=
  mkFin [1044, 1000] [0, 0] [1, 1] [0, 0] [0, 0] [0, 0] [0, 0] [0, 0] [0, 0] [0, 0]

/-- Base metrics of `fixF2`. -/
def exM2 : Metrics := (computeHistoricalMetrics fixF2).getD fixM0

/-- Base WACC breakdown of `fixF2`. -/
def exWd2 : WaccData := (computeWacc fixStock fixF2 fixRates 0.055).getD wdDefault

/-- Base-case projection of `fixF2` over one year. -/
def exP2 : Projection := (projectFcf fixF2 exM2 baseScenario 1).getD fixP5

/-- Base-case valuation of `fixF2`. -/
def exD2 : Dcf := (computeDcf exP2 exWd2 baseScenario fixStock fixF2 0.025).getD dcfDefault

/-- Counterexample to claim C2: on the genuine base-case result of `fixF2`,
the grid cell at growth `0.004` (the `-4%` row) and margin `0.04` (the
`+4%` column) does **not** equal the price from re-running the Cash Flow
Projector with that growth/margin as baseline: the projector floors the
year-1 growth at `0.005` while the grid uses the raw `0.004`. -/
theorem C2_growth_margin_grid_counterexample :
    computeHistoricalMetrics fixF2 = some exM2 ∧
    computeWacc fixStock fixF2 fixRates 0.055 = some exWd2 ∧
    projectFcf fixF2 exM2 baseScenario 1 = some exP2 ∧
    computeDcf exP2 exWd2 baseScenario fixStock fixF2 0.025 = some exD2 ∧
    exM2.avg_revenue_growth - 0.04 = 0.004 ∧
    exM2.avg_operating_margin + 0.04 = 0.04 ∧
    growthMarginCell fixF2 fixStock exWd2 exM2 exP2 exD2 1 0.025 0.004 0.04 ≠
      projectorCellPrice fixF2 fixStock exWd2 exM2 1 0.025 0.004 0.04 := by
  have hM : computeHistoricalMetrics fixF2 = some exM2 :=
    eq_some_getD (computeHistoricalMetrics_isSome fixF2
      (by simp [fixF2, mkFin]) (by simp [fixF2, mkFin]) (by simp [fixF2, mkFin])
      (by simp [fixF2, mkFin]) (by simp [fixF2, mkFin])) fixM0
  have hW : computeWacc fixStock fixF2 fixRates 0.055 = some exWd2 :=
    eq_some_getD (computeWacc_isSome fixStock fixF2 fixRates 0.055
      (by simp [fixF2, mkFin]) (by simp [fixF2, mkFin]) (by simp [fixF2, mkFin])
      (by simp [fixF2, mkFin])) wdDefault
  have hP : projectFcf fixF2 exM2 baseScenario 1 = some exP2 :=
    eq_some_getD (projectFcf_isSome fixF2 exM2 baseScenario 1
      (by simp [fixF2, mkFin]) (by simp [fixF2, mkFin]) (by simp [fixF2, mkFin])) fixP5
  have hPne : exP2.projected_fcf ≠ [] := by
    obtain ⟨br, tp0, ni0, _, _, _, hpc⟩ := projectFcf_eq_some hP
    intro hnil
    have hlen := projectFcfCore_fcf_length exM2 baseScenario 1 br tp0 ni0
    rw [← hpc, hnil] at hlen
    simp at hlen
  have hD : computeDcf exP2 exWd2 baseScenario fixStock fixF2 0.025 = some exD2 :=
    eq_some_getD (computeDcf_isSome exP2 exWd2 baseScenario fixStock fixF2 0.025
      hPne (by simp [fixF2, mkFin]) (by simp [fixF2, mkFin])) dcfDefault
  refine ⟨hM, hW, hP, hD, ?_, ?_, ?_⟩
  · norm_num [exM2, computeHistoricalMetrics, fixF2, mkFin, seqMap, periodRatio,
      periodAbsRatio, avgOr, bind, pure, List.range_succ]
  · norm_num [exM2, computeHistoricalMetrics, fixF2, mkFin, seqMap, periodRatio,
      periodAbsRatio, avgOr, bind, pure, List.range_succ]
    simp
  · norm_num [growthMarginCell, projectorCellPrice, exP2, exD2, exWd2, exM2,
      computeHistoricalMetrics, computeWacc, computeWaccCore, projectFcf,
      projectFcfCore, projTaxRate, computeDcf, computeDcfCore, fadeGrowth,
      fixF2, fixStock, fixRates, mkFin, seqMap, periodRatio, periodAbsRatio,
      avgOr, bind, pure, List.range_succ, baseScenario, List.mapIdx_cons,
      List.mapIdx_nil]

/-- Concrete instantiation of `C2_growth_margin_grid_refines_projector` on
the base-case result of `fixF2` at the cell with growth `0.044` (the `0%`
row, where no floor binds) and margin `0.04`. -/
theorem C2_growth_margin_grid_refines_projector_witness :
    growthMarginCell fixF2 fixStock exWd2 exM2 exP2 exD2 1 0.025 0.044 0.04 =
      projectorCellPrice fixF2 fixStock exWd2 exM2 1 0.025 0.044 0.04 := by
  have hP : projectFcf fixF2 exM2 baseScenario 1 = some exP2 :=
    eq_some_getD (projectFcf_isSome fixF2 exM2 baseScenario 1
      (by simp [fixF2, mkFin]) (by simp [fixF2, mkFin]) (by simp [fixF2, mkFin])) fixP5
  have hPne : exP2.projected_fcf ≠ [] := by
    obtain ⟨br, tp0, ni0, _, _, _, hpc⟩ := projectFcf_eq_some hP
    intro hnil
    have hlen := projectFcfCore_fcf_length exM2 baseScenario 1 br tp0 ni0
    rw [← hpc, hnil] at hlen
    simp at hlen
  have hD : computeDcf exP2 exWd2 baseScenario fixStock fixF2 0.025 = some exD2 :=
    eq_some_getD (computeDcf_isSome exP2 exWd2 baseScenario fixStock fixF2 0.025
      hPne (by simp [fixF2, mkFin]) (by simp [fixF2, mkFin])) dcfDefault
  have hwacc : exWd2.wacc = 19 / 200 := by
    norm_num [exWd2, computeWacc, computeWaccCore, fixF2, fixStock, fixRates,
      mkFin, bind, pure]
  exact C2_growth_margin_grid_refines_projector fixF2 fixStock exWd2 exM2 1 0.025
    0.044 0.04 exP2 exD2 hP hD (le_refl 1)
    (by rw [hwacc]; norm_num) (by norm_num) (by rw [hwacc]; norm_num)
    (by norm_num) (Or.inr (by norm_num))
